import Mathlib

/-!
Shallow embedding of the transaction-correlation and signaling core of
`src/janus_win/conductor_ws.cpp` (class `ConductorWs`), together with proofs
about it.  Structured JSON documents are modelled by an inductive `JValue`
(the spec treats serialization/deserialization of documents as a library
capability; inbound wire messages are therefore given to the model already
parsed, exactly as `Json::Reader::parse` would produce them).  The numeric
text conversions the code performs (`rtc::JsonValueToString` followed by
`std::stoll`) are modelled faithfully character by character.
-/

set_option autoImplicit false

namespace JanusWs

/-- Model of a jsoncpp `Json::Value` as used by `conductor_ws.cpp`. -/
inductive JValue where
  | jnull
  | jbool (b : Bool)
  | jint (n : Int)
  | jstr (s : String)
  | jarr (xs : List JValue)
  | jobj (fields : List (String × JValue))

/-- Association-list lookup keyed by string; models `std::map::find`-style
lookup (jsoncpp objects and `m_transactionMap` both have unique keys). -/
def lookupEntry {α : Type} : List (String × α) → String → Option α
  | [], _ => none
  | (k', v) :: rest, k => if k' = k then some v else lookupEntry rest k

/-- Models `map[k] = v`: overwrite the entry if the key is present,
otherwise append a new entry.  Used both for jsoncpp `operator[]`
assignment and for `m_transactionMap[transactionID] = jt`. -/
def setEntry {α : Type} : List (String × α) → String → α → List (String × α)
  | [], k, v => [(k, v)]
  | (k', v') :: rest, k, v =>
    if k' = k then (k, v) :: rest else (k', v') :: setEntry rest k v

/-- Models `std::map::erase(k)`. -/
def eraseEntry {α : Type} : List (String × α) → String → List (String × α)
  | [], _ => []
  | (k', v') :: rest, k =>
    if k' = k then eraseEntry rest k else (k', v') :: eraseEntry rest k

/-- Member access on a JSON object, as in `rtc::GetValueFromJsonObject`
(which requires the value to be an object and the key to be present). -/
def getMember (v : JValue) (k : String) : Option JValue :=
  match v with
  | .jobj fs => lookupEntry fs k
  | _ => none

/-- Digit character table for decimal printing (jsoncpp renders integers
with `'0' + digit`). -/
def digitChar (d : Nat) : Char :=
  match d with
  | 0 => '0' | 1 => '1' | 2 => '2' | 3 => '3' | 4 => '4'
  | 5 => '5' | 6 => '6' | 7 => '7' | 8 => '8' | _ => '9'

/-- Little-endian decimal digits of `n`, with explicit fuel (the fuel is
always instantiated with `n` itself, which suffices since `n / 10 < n`). -/
def natDigitsLE : Nat → Nat → List Nat
  | 0, _ => []
  | fuel + 1, n => if n = 0 then [] else n % 10 :: natDigitsLE fuel (n / 10)

/-- Decimal rendering of a natural number, most significant digit first,
as jsoncpp's integer writer produces it. -/
def natToString (n : Nat) : String :=
  if n = 0 then "0" else String.mk (((natDigitsLE n n).map digitChar).reverse)

/-- Decimal rendering of an integer (jsoncpp `valueToString(Int64)`). -/
def intToDecimalString (i : Int) : String :=
  if i < 0 then "-" ++ natToString i.natAbs else natToString i.toNat

mutual

/-- Models `rtc::JsonValueToString` (a `Json::FastWriter` pass with the
trailing newline stripped): the compact textual form of a value.
String escaping is not modelled (no string the code serializes this way
contains characters needing escapes on the claim inputs). -/
def jsonValueToString : JValue → String
  | .jnull => "null"
  | .jbool true => "true"
  | .jbool false => "false"
  | .jint n => intToDecimalString n
  | .jstr s => "\"" ++ s ++ "\""
  | .jarr xs => "[" ++ jsonArrayBody xs ++ "]"
  | .jobj fs => "\x7b" ++ jsonObjectBody fs ++ "\x7d"

/-- Comma-separated serialization of array elements. -/
def jsonArrayBody : List JValue → String
  | [] => ""
  | [x] => jsonValueToString x
  | x :: y :: xs => jsonValueToString x ++ "," ++ jsonArrayBody (y :: xs)

/-- Comma-separated serialization of object fields. -/
def jsonObjectBody : List (String × JValue) → String
  | [] => ""
  | [(k, v)] => "\"" ++ k ++ "\":" ++ jsonValueToString v
  | (k, v) :: f :: fs =>
    "\"" ++ k ++ "\":" ++ jsonValueToString v ++ "," ++ jsonObjectBody (f :: fs)

end

/-- Models `rtc::GetStringFromJson`: accept a string directly, render
booleans and integers; fail on null, arrays and objects. -/
def jsonToStringValue : JValue → Option String
  | .jstr s => some s
  | .jint n => some (intToDecimalString n)
  | .jbool true => some "true"
  | .jbool false => some "false"
  | _ => none

/-- Models `rtc::GetStringFromJsonObject`: member access followed by
string conversion.  On failure the C++ out-parameter keeps its previous
value, which callers below reproduce with `Option.getD`. -/
def getStringFromJsonObject (v : JValue) (k : String) : Option String :=
  (getMember v k).bind jsonToStringValue

/-- Numeric value of an ASCII digit character, `none` for non-digits. -/
def digitVal (c : Char) : Option Nat :=
  if 48 ≤ c.toNat ∧ c.toNat ≤ 57 then some (c.toNat - 48) else none

/-- Longest digit run at the head of the character list, with the rest. -/
def takeDigits : List Char → List Nat × List Char
  | [] => ([], [])
  | c :: cs =>
    match digitVal c with
    | some d =>
      let r := takeDigits cs
      (d :: r.1, r.2)
    | none => ([], c :: cs)

/-- Accumulate a digit list (most significant first) into a natural. -/
def parseNatAcc (ds : List Nat) : Nat :=
  ds.foldl (fun a d => a * 10 + d) 0

/-- The whitespace set `std::stoll` skips (C locale `isspace`). -/
def isSpaceChar (c : Char) : Bool :=
  c = ' ' || c = '\t' || c = '\n' || c = '\r' || c = '\x0b' || c = '\x0c'

/-- Exceptions the C++ translation unit can raise: `std::out_of_range`
(from `std::map::at` and from `std::stoll` overflow),
`std::invalid_argument` (from `std::stoll` on non-numeric text) and
`std::bad_function_call` (from invoking an empty `std::function`). -/
inductive CppException where
  | outOfRange
  | invalidArgument
  | badFunctionCall
  deriving DecidableEq

/-- Models `std::stoll` on a character list: skip leading whitespace,
read an optional sign, then a digit run; raise `invalid_argument` when no
digits are found and `out_of_range` when the value leaves the
`long long` range. -/
def stollChars (cs : List Char) : Except CppException Int :=
  let cs1 := cs.dropWhile isSpaceChar
  let signed : Bool × List Char :=
    match cs1 with
    | [] => (false, [])
    | c :: r =>
      if c = '-' then (true, r)
      else if c = '+' then (false, r)
      else (false, c :: r)
  let ds := (takeDigits signed.2).1
  if ds = [] then .error .invalidArgument
  else
    let v0 : Int := (parseNatAcc ds : Nat)
    let v : Int := if signed.1 then -v0 else v0
    if v < -(2 ^ 63) ∨ (2 ^ 63 - 1 : Int) < v then .error .outOfRange
    else .ok v

/-- `std::stoll` on a string. -/
def stoll (s : String) : Except CppException Int :=
  stollChars s.data

/-!
## Continuations and conductor state

The C++ class `JanusTransaction` (declared in `conductor_ws.h`, whose text
is not part of this translation unit) holds, per its uses here,
`std::function` members `Success(int, std::string)`,
`Error(std::string, std::string)` and `Event(std::string)` plus a
`transactionId` string.  A default-constructed `std::function` is empty and
invoking it raises `std::bad_function_call`; an `Option` models that.  The
closures the code installs are defunctionalized: each constructor below
names the one lambda of `conductor_ws.cpp` it stands for, and
`runSuccessCont` / `runErrorCont` / `runEventCont` are their bodies. -/

/-- Tags for the `jt->Success` lambdas installed by `CreateSession`
(line 525) and `CreateHandle` (line 567). -/
inductive SuccessCont where
  | createSessionS
  | createHandleS
  deriving DecidableEq

/-- Tags for the `jt->Error` lambdas installed by `CreateSession`
(line 549) and `CreateHandle` (line 594). -/
inductive ErrorCont where
  | createSessionE
  | createHandleE
  deriving DecidableEq

/-- Tags for the `jt->Event` lambdas installed by `CreateHandle`
(line 590, empty body), `JoinRoom` (line 617) and `SendOffer` (line 676). -/
inductive EventCont where
  | createHandleEvt
  | joinRoomEvt
  | sendOfferEvt
  deriving DecidableEq

/-- One pending transaction, as stored in `m_transactionMap`.  A field is
`none` when the corresponding `std::function` member was never assigned
(left default-constructed, i.e. empty). -/
structure JanusTransaction where
  transactionId : String
  Success : Option SuccessCont
  Error : Option ErrorCont
  Event : Option EventCont
  deriving DecidableEq

/-- Observable actions of the conductor on its collaborators: sends to the
gateway socket, queued UI-thread sends, logging, and the narrow media-engine
effects.  Documents are carried structurally (serializing with
`Json::StyledWriter` and re-parsing is the identity at the document level). -/
inductive Effect where
  | consoleOut (s : String)
  | logInfo (s : String)
  | logWarning (s : String)
  | logError (s : String)
  | sendToJanus (doc : JValue)
  | sendMessage (doc : JValue)
  | signOut
  | stopLocalRenderer
  | stopRemoteRenderer
  | addTracks
  | createOffer
  | addIceCandidate
  | setRemoteDescription (sdp : String)
  | messageBox (caption text : String)

/-- The `ConductorWs` member state relevant to the signaling core.
`randSupply` is an oracle stream feeding `RandomString(12)` (the ids are
random 12-character strings; the stream makes the nondeterminism explicit).
`pcInitOk` and `addIceOk` are oracles for the out-of-scope WebRTC
collaborator calls `InitializePeerConnection` (factory bootstrap) and
`peer_connection_->AddIceCandidate`. -/
structure ConductorState where
  m_SessionId : Int
  m_HandleId : Int
  m_transactionMap : List (String × JanusTransaction)
  peer_id : Int
  loopback : Bool
  peer_connection : Bool
  peer_connection_factory : Bool
  randSupply : List String
  pcInitOk : Bool
  addIceOk : Bool
  deriving DecidableEq

/-- Models `RandomString(12)`: draw the next id from the oracle stream. -/
def RandomString12 (s : ConductorState) : String × ConductorState :=
  match s.randSupply with
  | [] => ("", s)
  | t :: ts => (t, { s with randSupply := ts })

/-- One ICE candidate as seen through `webrtc::IceCandidateInterface`:
`sdp_mid()`, `sdp_mline_index()`, and the result of `ToString` (`none`
models serialization failure). -/
structure IceCandidate where
  sdp_mid : String
  sdp_mline_index : Int
  serialized : Option String
  deriving DecidableEq

/-- `ConductorWs::DeletePeerConnection` (line 123): stops both renderers
and resets the connection fields.  The transaction map is untouched. -/
def DeletePeerConnection (s : ConductorState) : ConductorState × List Effect :=
  ({ s with peer_connection := false, peer_connection_factory := false,
            peer_id := -1, loopback := false },
   [.stopLocalRenderer, .stopRemoteRenderer])

/-- `ConductorWs::Close` (line 57): `client_->SignOut()` then
`DeletePeerConnection()`. -/
def Close (s : ConductorState) : ConductorState × List Effect :=
  let r := DeletePeerConnection s
  (r.1, Effect.signOut :: r.2)

/-- `ConductorWs::InitializePeerConnection` (line 62): WebRTC factory and
peer-connection bootstrap, out of scope per the spec; the `pcInitOk` oracle
decides its success.  Returns the updated state, the emitted effects and
the boolean result. -/
def InitializePeerConnection (s : ConductorState) :
    ConductorState × List Effect × Bool :=
  if s.pcInitOk then
    ({ s with peer_connection := true, peer_connection_factory := true },
     [.addTracks], true)
  else
    let r := DeletePeerConnection s
    (r.1, [.messageBox "Error" "Failed to initialize PeerConnectionFactory"] ++ r.2,
     false)

/-- `ConductorWs::CreateHandle` (line 563): register a transaction whose
`Success`, `Event` and `Error` members are all assigned, then send the
`attach` request.  (The source's stray chained assignment
`jdata["id"] = jmessage["janus"] = "attach"` writes the unused local
`jdata`, which is discarded; only `jmessage` is sent.) -/
def CreateHandle (s0 : ConductorState) : ConductorState × List Effect :=
  let p := RandomString12 s0
  let tid := p.1
  let s := p.2
  let jt : JanusTransaction :=
    { transactionId := tid, Success := some .createHandleS,
      Error := some .createHandleE, Event := some .createHandleEvt }
  let s := { s with m_transactionMap := setEntry s.m_transactionMap tid jt }
  let doc : JValue := .jobj
    [("janus", .jstr "attach"),
     ("plugin", .jstr "janus.plugin.echotest"),
     ("transaction", .jstr tid),
     ("session_id", .jint s.m_SessionId)]
  (s, [.sendToJanus doc])

/-- `ConductorWs::JoinRoom` (line 611): register a transaction with only
its `Event` member assigned, send the `message` request carrying the join
body, then run `InitializePeerConnection` and either `CreateOffer` or show
an error box.  The `handleId`/`feedId` parameters are unused by the body
(it reads the member fields), as in the source. -/
def JoinRoom (s0 : ConductorState) (handleId feedId : Int) :
    ConductorState × List Effect :=
  let p := RandomString12 s0
  let tid := p.1
  let s := p.2
  let jt : JanusTransaction :=
    { transactionId := tid, Success := none, Error := none,
      Event := some .joinRoomEvt }
  let s := { s with m_transactionMap := setEntry s.m_transactionMap tid jt }
  let doc : JValue := .jobj
    [("body", .jobj [("audio", .jbool true), ("video", .jbool true)]),
     ("janus", .jstr "message"),
     ("transaction", .jstr tid),
     ("session_id", .jint s.m_SessionId),
     ("handle_id", .jint s.m_HandleId)]
  let r := InitializePeerConnection s
  if r.2.2 then
    (r.1, [.sendToJanus doc] ++ r.2.1 ++ [.createOffer])
  else
    (r.1, [.sendToJanus doc] ++ r.2.1 ++
      [.messageBox "Error" "Failed to initialize PeerConnection"])

/-- `ConductorWs::SendOffer` (line 671): register a transaction with only
its `Event` member assigned and send the `configure` request carrying the
local description. -/
def SendOffer (s0 : ConductorState) (handleId : Int)
    (sdp_type sdp_desc : String) : ConductorState × List Effect :=
  let p := RandomString12 s0
  let tid := p.1
  let s := p.2
  let jt : JanusTransaction :=
    { transactionId := tid, Success := none, Error := none,
      Event := some .sendOfferEvt }
  let s := { s with m_transactionMap := setEntry s.m_transactionMap tid jt }
  let doc : JValue := .jobj
    [("body", .jobj [("request", .jstr "configure"),
                     ("audio", .jbool true), ("video", .jbool true)]),
     ("jsep", .jobj [("type", .jstr sdp_type), ("sdp", .jstr sdp_desc)]),
     ("janus", .jstr "message"),
     ("transaction", .jstr tid),
     ("session_id", .jint s.m_SessionId),
     ("handle_id", .jint s.m_HandleId)]
  (s, [.sendToJanus doc])

/-- `ConductorWs::CreateSession` (line 519): register a transaction with
`Success` and `Error` assigned (`Event` is never assigned) and send the
`create` request. -/
def CreateSession (s0 : ConductorState) : ConductorState × List Effect :=
  let p := RandomString12 s0
  let tid := p.1
  let s := p.2
  let jt : JanusTransaction :=
    { transactionId := tid, Success := some .createSessionS,
      Error := some .createSessionE, Event := none }
  let s := { s with m_transactionMap := setEntry s.m_transactionMap tid jt }
  let doc : JValue := .jobj
    [("janus", .jstr "create"), ("transaction", .jstr tid)]
  (s, [.sendToJanus doc])

/-- `ConductorWs::trickleCandidate` (line 724): serialize the candidate
into a `jcandidate` object — note the source assigns the `"sdpMid"` key
twice, the second time with the candidate string — and send a request whose
`janus` field is `"message"`.  No transaction is registered
(`m_transactionMap` is never touched). -/
def trickleCandidate (s0 : ConductorState) (handleId : Int)
    (candidate : IceCandidate) : ConductorState × List Effect :=
  let p := RandomString12 s0
  let tid := p.1
  let s := p.2
  match candidate.serialized with
  | none => (s, [.logError "Failed to serialize candidate"])
  | some sdp =>
    let jcandidate := setEntry ([] : List (String × JValue))
        "sdpMid" (.jstr candidate.sdp_mid)
    let jcandidate := setEntry jcandidate "sdpMLineIndex"
        (.jint candidate.sdp_mline_index)
    let jcandidate := setEntry jcandidate "sdpMid" (.jstr sdp)
    let doc : JValue := .jobj
      [("janus", .jstr "message"),
       ("candidate", .jobj jcandidate),
       ("transaction", .jstr tid),
       ("session_id", .jint s.m_SessionId),
       ("handle_id", .jint s.m_HandleId)]
    (s, [.sendToJanus doc])

/-- `ConductorWs::OnIceCandidate` (line 159): in loopback mode, feed the
candidate back; otherwise build the candidate document (keys `sdpMid`,
`sdpMLineIndex`, `candidate`) and queue it with `SendMessage`. -/
def OnIceCandidate (s : ConductorState) (candidate : IceCandidate) :
    ConductorState × List Effect :=
  if s.loopback then
    if s.addIceOk then (s, [.addIceCandidate])
    else (s, [.addIceCandidate, .logWarning "Failed to apply the received candidate"])
  else
    let fs := setEntry ([] : List (String × JValue))
        "sdpMid" (.jstr candidate.sdp_mid)
    let fs := setEntry fs "sdpMLineIndex" (.jint candidate.sdp_mline_index)
    match candidate.serialized with
    | none => (s, [.logError "Failed to serialize candidate"])
    | some sdp =>
      let fs := setEntry fs "candidate" (.jstr sdp)
      (s, [.sendMessage (.jobj fs)])

/-- Body of the `jt->Success` lambdas.  `createSessionS` (line 525):
re-parse the message, read `data` then `id` (each `GetValueFromJsonObject`
failure leaves the default-constructed null value in place), render the id
with `rtc::JsonValueToString`, convert with `std::stoll` into
`m_SessionId`, then call `CreateHandle`.  `createHandleS` (line 567): the
same extraction into `m_HandleId`, then `JoinRoom(m_HandleId, 0)`. -/
def runSuccessCont (k : SuccessCont) (handle_id : Int) (msg : JValue)
    (s : ConductorState) : Except CppException (ConductorState × List Effect) :=
  match k with
  | .createSessionS =>
    let janus_value := (getMember msg "data").getD .jnull
    let janus_session_value := (getMember janus_value "id").getD .jnull
    let sessionId_str := jsonValueToString janus_session_value
    match stoll sessionId_str with
    | .error e => .error e
    | .ok v =>
      let s := { s with m_SessionId := v }
      .ok (CreateHandle s)
  | .createHandleS =>
    let janus_value := (getMember msg "data").getD .jnull
    let janus_handle_value := (getMember janus_value "id").getD .jnull
    let handleId_str := jsonValueToString janus_handle_value
    match stoll handleId_str with
    | .error e => .error e
    | .ok v =>
      let s := { s with m_HandleId := v }
      .ok (JoinRoom s s.m_HandleId 0)

/-- Body of the `jt->Error` lambdas: both only log (`CreateSession`
line 549, `CreateHandle` line 594). -/
def runErrorCont (k : ErrorCont) (code reason : String)
    (s : ConductorState) : ConductorState × List Effect :=
  match k with
  | .createSessionE => (s, [.logInfo ("Ooops: " ++ code ++ " " ++ reason)])
  | .createHandleE => (s, [.logInfo "CreateHandle error:"])

/-- jsoncpp equality against `Json::Value(0)` (what the macro `NULL`
converts to): true exactly for the integer value zero, since jsoncpp
equality first compares the stored type. -/
def isIntZero : JValue → Bool
  | .jint n => n = 0
  | _ => false

/-- Body of the `jt->Event` lambdas.  `createHandleEvt` (line 590) is
empty.  `joinRoomEvt` (line 617) reads `data.result` (the default-empty
out-string survives lookup failure) and warns when it is not `"ok"`.
`sendOfferEvt` (line 676) reads `"jsep"` from the freshly
default-constructed null `janus_value` — not from the parsed message — and
compares the result against `NULL` (which converts to `Json::Value(0)`, an
integer zero, so the comparison is between the null value and integer 0);
when they differ it builds an answer description from
`rtc::JsonValueToString(janus_value)` and applies it. -/
def runEventCont (k : EventCont) (msg : JValue) (s : ConductorState) :
    ConductorState × List Effect :=
  match k with
  | .createHandleEvt => (s, [])
  | .joinRoomEvt =>
    let janus_value := (getMember msg "data").getD .jnull
    let nego_result := (getStringFromJsonObject janus_value "result").getD ""
    if nego_result ≠ "ok" then (s, [.logWarning "negotiation failed! "])
    else (s, [])
  | .sendOfferEvt =>
    let janus_value : JValue := .jnull
    let janus_value := (getMember janus_value "jsep").getD janus_value
    if isIntZero janus_value then (s, [])
    else (s, [.setRemoteDescription (jsonValueToString janus_value)])

/-- `ConductorWs::OnMessageFromJanus` (line 222): classify the inbound
document by its `janus` field and dispatch.  The `success`, `error` and
`event` branches read the transaction id (on extraction failure the C++
out-string keeps the discriminator it already held), then perform
`m_transactionMap.at(id)` — which raises `std::out_of_range` when the id is
absent — invoke the corresponding continuation (raising
`std::bad_function_call` when it was never assigned), and for `success` and
`error` erase the entry afterwards.  The input is the already-parsed
document; `Json::Reader::parse` is the out-of-scope library step and every
claim input is well-formed JSON. -/
def OnMessageFromJanus (s : ConductorState) (jmessage : JValue) :
    Except CppException (ConductorState × List Effect) :=
  let effs0 := [Effect.consoleOut "Got wsmsg:"]
  let janus_str := (getStringFromJsonObject jmessage "janus").getD ""
  if janus_str = "" then .ok (s, effs0)
  else if janus_str = "ack" then
    .ok (s, effs0 ++ [.logInfo "Got an ack on session. "])
  else if janus_str = "success" then
    let tid := (getStringFromJsonObject jmessage "transaction").getD janus_str
    match lookupEntry s.m_transactionMap tid with
    | none => .error .outOfRange
    | some jt =>
      match jt.Success with
      | none => .error .badFunctionCall
      | some k =>
        match runSuccessCont k 0 jmessage s with
        | .error e => .error e
        | .ok r =>
          .ok ({ r.1 with m_transactionMap := eraseEntry r.1.m_transactionMap tid },
               effs0 ++ r.2)
  else if janus_str = "trickle" then
    .ok (s, effs0 ++ [.logInfo "Got a trickle candidate from Janus. "])
  else if janus_str = "webrtcup" then
    .ok (s, effs0 ++ [.logInfo "The PeerConnection with the gateway is up!"])
  else if janus_str = "hangup" then
    .ok (s, effs0 ++ [.logInfo "A plugin asked the core to hangup a PeerConnection on one of our handles! "])
  else if janus_str = "detached" then
    .ok (s, effs0 ++ [.logInfo "A plugin asked the core to detach one of our handles! "])
  else if janus_str = "media" then
    .ok (s, effs0 ++ [.logInfo "Media started/stopped flowing. "])
  else if janus_str = "slowlink" then
    .ok (s, effs0 ++ [.logInfo "Got a slowlink event! "])
  else if janus_str = "error" then
    let tid := (getStringFromJsonObject jmessage "transaction").getD janus_str
    match lookupEntry s.m_transactionMap tid with
    | none => .error .outOfRange
    | some jt =>
      match jt.Error with
      | none => .error .badFunctionCall
      | some k =>
        let r := runErrorCont k "123" "456" s
        .ok ({ r.1 with m_transactionMap := eraseEntry r.1.m_transactionMap tid },
             effs0 ++ [.logInfo "Got an error. "] ++ r.2)
  else if janus_str = "event" then
    let tid := (getStringFromJsonObject jmessage "transaction").getD janus_str
    match lookupEntry s.m_transactionMap tid with
    | none => .error .outOfRange
    | some jt =>
      match jt.Event with
      | none => .error .badFunctionCall
      | some k =>
        let r := runEventCont k jmessage s
        .ok (r.1, effs0 ++ [.logInfo "Got a plugin event! "] ++ r.2)
  else .ok (s, effs0)

/-!
## Concrete scenario fixtures
-/

/-- A conductor state with an empty transaction registry. -/
def emptyState : ConductorState :=
  { m_SessionId := 0, m_HandleId := 0, m_transactionMap := [],
    peer_id := -1, loopback := false, peer_connection := false,
    peer_connection_factory := false, randSupply := [],
    pcInitOk := true, addIceOk := true }

/-- The transaction record `CreateSession` installs for id `tid`. -/
def jtCreateSession (tid : String) : JanusTransaction :=
  { transactionId := tid, Success := some .createSessionS,
    Error := some .createSessionE, Event := none }

/-- A conductor state with the create-session transaction `"abc123"`
pending and one fresh id available for the subsequent `CreateHandle`. -/
def pendingCreateState : ConductorState :=
  { emptyState with
    m_transactionMap := [("abc123", jtCreateSession "abc123")],
    randSupply := ["tHandle00001"] }

/-- The create-session success envelope of the spec's concrete scenario,
with the assigned id as a parameter:
`{"janus":"success","transaction":"abc123","data":{"id":n}}`. -/
def createSuccessMsg (n : Nat) : JValue :=
  .jobj [("janus", .jstr "success"), ("transaction", .jstr "abc123"),
         ("data", .jobj [("id", .jint (n : Int))])]

/-- The spec's concrete error envelope
`{"janus":"error","transaction":"abc123","error":{"code":458,"reason":"no such session"}}`. -/
def error458Msg : JValue :=
  .jobj [("janus", .jstr "error"), ("transaction", .jstr "abc123"),
         ("error", .jobj [("code", .jint 458),
                          ("reason", .jstr "no such session")])]

/-- The transaction record `SendOffer` installs for id `tid`. -/
def jtSendOffer (tid : String) : JanusTransaction :=
  { transactionId := tid, Success := none, Error := none,
    Event := some .sendOfferEvt }

/-- A state with the configure/offer transaction `"offer0000001"` pending. -/
def pendingOfferState : ConductorState :=
  { emptyState with
    m_transactionMap := [("offer0000001", jtSendOffer "offer0000001")] }

/-- An event envelope for the pending offer transaction that carries a
remote description:
`{"janus":"event","transaction":"offer0000001","jsep":{"type":"answer","sdp":"v=0 remote-answer"}}`. -/
def offerEventMsg : JValue :=
  .jobj [("janus", .jstr "event"), ("transaction", .jstr "offer0000001"),
         ("jsep", .jobj [("type", .jstr "answer"),
                         ("sdp", .jstr "v=0 remote-answer")])]

/-- The candidate of the spec's round-trip scenario:
`(mid="0", mLineIndex=0, candidate="candidate:1 ...")`. -/
def sampleCandidate : IceCandidate :=
  { sdp_mid := "0", sdp_mline_index := 0, serialized := some "candidate:1 ..." }

/-- A state with an empty registry and one fresh id for a trickle request. -/
def trickleState : ConductorState :=
  { emptyState with randSupply := ["trickleTid01"] }

/-- The wire document `trickleCandidate` sends for `sampleCandidate` from
`trickleState`. -/
def trickleWireDoc : JValue :=
  .jobj [("janus", .jstr "message"),
         ("candidate", .jobj [("sdpMid", .jstr "candidate:1 ..."),
                              ("sdpMLineIndex", .jint 0)]),
         ("transaction", .jstr "trickleTid01"),
         ("session_id", .jint 0),
         ("handle_id", .jint 0)]

/-- The transaction record `JoinRoom` installs for id `tid`. -/
def jtJoinRoom (tid : String) : JanusTransaction :=
  { transactionId := tid, Success := none, Error := none,
    Event := some .joinRoomEvt }

/-- The transaction record `CreateHandle` installs for id `tid`. -/
def jtCreateHandle (tid : String) : JanusTransaction :=
  { transactionId := tid, Success := some .createHandleS,
    Error := some .createHandleE, Event := some .createHandleEvt }

/-- A success envelope echoing the pending offer transaction's id. -/
def offerSuccessMsg : JValue :=
  .jobj [("janus", .jstr "success"), ("transaction", .jstr "offer0000001")]

/-- The state reached from `pendingCreateState` once the create-session
success carrying id `n` has been processed: the session id is recorded and
the attach-handle transaction is pending. -/
def afterCreateSuccessState (n : Nat) : ConductorState :=
  { emptyState with
    m_SessionId := (n : Int),
    m_transactionMap := [("tHandle00001", jtCreateHandle "tHandle00001")] }

/-- The attach request `CreateHandle` sends after the create-session
success carrying id `n`. -/
def attachMsgSent (n : Nat) : JValue :=
  .jobj [("janus", .jstr "attach"),
         ("plugin", .jstr "janus.plugin.echotest"),
         ("transaction", .jstr "tHandle00001"),
         ("session_id", .jint (n : Int))]

/-!
## Helper lemmas: association lists
-/

theorem lookupEntry_eraseEntry_self {α : Type} (l : List (String × α)) (k : String) :
    lookupEntry (eraseEntry l k) k = none := by
  induction l with
  | nil => rfl
  | cons p rest ih =>
    obtain ⟨k', v⟩ := p
    by_cases h : k' = k
    · simpa [eraseEntry, h] using ih
    · simpa [eraseEntry, lookupEntry, h] using ih

theorem lookupEntry_setEntry_self {α : Type} (l : List (String × α))
    (k : String) (v : α) : lookupEntry (setEntry l k v) k = some v := by
  induction l with
  | nil => simp [setEntry, lookupEntry]
  | cons p rest ih =>
    obtain ⟨k', v'⟩ := p
    by_cases h : k' = k
    · simp [setEntry, h, lookupEntry]
    · simpa [setEntry, lookupEntry, h] using ih

theorem runEventCont_fst (k : EventCont) (msg : JValue) (s : ConductorState) :
    (runEventCont k msg s).1 = s := by
  cases k <;> simp only [runEventCont] <;> split <;> rfl

/-!
## Helper lemmas: decimal round trip

`rtc::JsonValueToString` renders the gateway's 64-bit identifier in
decimal and `std::stoll` reads it back; the lemmas below show this
composition is the identity on the full non-negative `long long` range.
-/

theorem natDigitsLE_mem_lt_ten :
    ∀ (f n d : Nat), d ∈ natDigitsLE f n → d < 10 := by
  intro f
  induction f with
  | zero => intro n d h; simp [natDigitsLE] at h
  | succ f ih =>
    intro n d h
    rw [natDigitsLE] at h
    by_cases h0 : n = 0
    · simp [h0] at h
    · simp only [h0, if_false, List.mem_cons] at h
      rcases h with h | h
      · omega
      · exact ih _ _ h

theorem foldl_natDigitsLE_reverse :
    ∀ (f n a : Nat), n ≤ f →
      ((natDigitsLE f n).reverse).foldl (fun x d => x * 10 + d) a =
        a * 10 ^ (natDigitsLE f n).length + n := by
  intro f
  induction f with
  | zero =>
    intro n a h
    have hn : n = 0 := Nat.le_zero.mp h
    subst hn
    simp [natDigitsLE]
  | succ f ih =>
    intro n a h
    by_cases h0 : n = 0
    · subst h0; simp [natDigitsLE]
    · rw [natDigitsLE]
      simp only [h0, if_false]
      rw [List.reverse_cons, List.foldl_append]
      have hdiv : n / 10 ≤ f := by
        have : n / 10 < n := Nat.div_lt_self (Nat.pos_of_ne_zero h0) (by omega)
        omega
      rw [ih (n / 10) a hdiv]
      simp only [List.foldl_cons, List.foldl_nil, List.length_cons, pow_succ]
      have hmod := Nat.div_add_mod n 10
      set L := 10 ^ (natDigitsLE f (n / 10)).length with hL
      have h2 : (a * L + n / 10) * 10 + n % 10 =
          a * L * 10 + (n / 10 * 10 + n % 10) := by ring
      have h3 : a * (L * 10) = a * L * 10 := by ring
      omega

theorem natDigitsLE_ne_nil (n : Nat) (h : n ≠ 0) : natDigitsLE n n ≠ [] := by
  cases n with
  | zero => exact absurd rfl h
  | succ m => simp [natDigitsLE]

theorem digitVal_digitChar (d : Nat) (h : d < 10) :
    digitVal (digitChar d) = some d := by
  interval_cases d <;> rfl

theorem isSpaceChar_digitChar (d : Nat) : isSpaceChar (digitChar d) = false := by
  unfold digitChar
  split <;> rfl

theorem digitChar_ne_sign (d : Nat) : digitChar d ≠ '-' ∧ digitChar d ≠ '+' := by
  unfold digitChar
  split <;> exact ⟨by decide, by decide⟩

theorem takeDigits_map_digitChar (ds : List Nat) (h : ∀ d ∈ ds, d < 10) :
    takeDigits (ds.map digitChar) = (ds, []) := by
  induction ds with
  | nil => rfl
  | cons d ds ih =>
    have hd : d < 10 := h d (List.mem_cons_self d ds)
    have hds : ∀ e ∈ ds, e < 10 := fun e he => h e (List.mem_cons_of_mem d he)
    simp only [List.map_cons, takeDigits, digitVal_digitChar d hd, ih hds]

theorem dropWhile_not_space (l : List Char)
    (h : ∀ c ∈ l, isSpaceChar c = false) :
    l.dropWhile isSpaceChar = l := by
  cases l with
  | nil => rfl
  | cons c cs =>
    have hc : isSpaceChar c = false := h c (List.mem_cons_self c cs)
    simp [List.dropWhile, hc]

theorem stollChars_digitChars (ds : List Nat) (hne : ds ≠ [])
    (hlt : ∀ d ∈ ds, d < 10) (hv : parseNatAcc ds < 2 ^ 63) :
    stollChars (ds.map digitChar) = .ok (parseNatAcc ds) := by
  cases ds with
  | nil => exact absurd rfl hne
  | cons d ds =>
    have hd : d < 10 := hlt d (List.mem_cons_self d ds)
    have hspace : ∀ c ∈ (d :: ds).map digitChar, isSpaceChar c = false := by
      intro c hc
      rcases List.mem_map.mp hc with ⟨e, _, rfl⟩
      exact isSpaceChar_digitChar e
    have hvi : (parseNatAcc (d :: ds) : Int) < 2 ^ 63 := by exact_mod_cast hv
    have hnn : (0 : Int) ≤ (parseNatAcc (d :: ds) : Int) := Int.ofNat_nonneg _
    have h63 : ((2 : Int) ^ 63) = 9223372036854775808 := by norm_num
    unfold stollChars
    rw [dropWhile_not_space _ hspace]
    simp only [List.map_cons]
    rw [if_neg (digitChar_ne_sign d).1, if_neg (digitChar_ne_sign d).2]
    rw [show ((digitChar d :: ds.map digitChar) : List Char) =
          (d :: ds).map digitChar from rfl]
    rw [takeDigits_map_digitChar _ hlt]
    rw [if_neg (List.cons_ne_nil d ds)]
    rw [if_neg (by
      push_neg
      rw [h63] at hvi ⊢
      constructor <;> simp <;> omega)]
    simp

theorem natToString_data (n : Nat) (h : n ≠ 0) :
    (natToString n).data = ((natDigitsLE n n).reverse).map digitChar := by
  rw [natToString, if_neg h]
  simp [List.map_reverse]

theorem parseNatAcc_natDigitsLE (n : Nat) :
    parseNatAcc ((natDigitsLE n n).reverse) = n := by
  rw [parseNatAcc, foldl_natDigitsLE_reverse n n 0 (le_refl n)]
  simp

theorem stoll_natToString (n : Nat) (h : n < 2 ^ 63) :
    stoll (natToString n) = .ok (n : Int) := by
  by_cases h0 : n = 0
  · subst h0; rfl
  · rw [stoll, natToString_data n h0]
    rw [stollChars_digitChars ((natDigitsLE n n).reverse)
        (by simpa using natDigitsLE_ne_nil n h0)
        (fun d hd => natDigitsLE_mem_lt_ten n n d (List.mem_reverse.mp hd))
        (by rwa [parseNatAcc_natDigitsLE])]
    rw [parseNatAcc_natDigitsLE]

theorem jsonValueToString_natInt (n : Nat) :
    jsonValueToString (.jint (n : Int)) = natToString n := by
  rw [jsonValueToString, intToDecimalString, if_neg (by omega)]
  simp

/-!
## Dispatch lemmas for `OnMessageFromJanus`

Each lemma fixes the discriminator and the registry lookup outcome and
states the value `OnMessageFromJanus` computes in that case.
-/

theorem onMsg_success_notFound (s : ConductorState) (msg : JValue) (tid : String)
    (hd : getStringFromJsonObject msg "janus" = some "success")
    (ht : getStringFromJsonObject msg "transaction" = some tid)
    (hreg : lookupEntry s.m_transactionMap tid = none) :
    OnMessageFromJanus s msg = .error .outOfRange := by
  rw [OnMessageFromJanus]
  simp only [hd, ht, hreg, Option.getD_some, eq_self_iff_true, if_true, if_false,
    eq_false (by decide : ¬(("success" : String) = "")),
    eq_false (by decide : ¬(("success" : String) = "ack"))]

theorem onMsg_success_noCont (s : ConductorState) (msg : JValue) (tid : String)
    (jt : JanusTransaction)
    (hd : getStringFromJsonObject msg "janus" = some "success")
    (ht : getStringFromJsonObject msg "transaction" = some tid)
    (hreg : lookupEntry s.m_transactionMap tid = some jt)
    (hS : jt.Success = none) :
    OnMessageFromJanus s msg = .error .badFunctionCall := by
  rw [OnMessageFromJanus]
  simp only [hd, ht, hreg, hS, Option.getD_some, eq_self_iff_true, if_true, if_false,
    eq_false (by decide : ¬(("success" : String) = "")),
    eq_false (by decide : ¬(("success" : String) = "ack"))]

theorem onMsg_success_raises (s : ConductorState) (msg : JValue) (tid : String)
    (jt : JanusTransaction) (k : SuccessCont) (e : CppException)
    (hd : getStringFromJsonObject msg "janus" = some "success")
    (ht : getStringFromJsonObject msg "transaction" = some tid)
    (hreg : lookupEntry s.m_transactionMap tid = some jt)
    (hS : jt.Success = some k)
    (hr : runSuccessCont k 0 msg s = .error e) :
    OnMessageFromJanus s msg = .error e := by
  rw [OnMessageFromJanus]
  simp only [hd, ht, hreg, hS, hr, Option.getD_some, eq_self_iff_true, if_true, if_false,
    eq_false (by decide : ¬(("success" : String) = "")),
    eq_false (by decide : ¬(("success" : String) = "ack"))]

theorem onMsg_success_ok (s : ConductorState) (msg : JValue) (tid : String)
    (jt : JanusTransaction) (k : SuccessCont) (r : ConductorState × List Effect)
    (hd : getStringFromJsonObject msg "janus" = some "success")
    (ht : getStringFromJsonObject msg "transaction" = some tid)
    (hreg : lookupEntry s.m_transactionMap tid = some jt)
    (hS : jt.Success = some k)
    (hr : runSuccessCont k 0 msg s = .ok r) :
    OnMessageFromJanus s msg =
      .ok ({ r.1 with m_transactionMap := eraseEntry r.1.m_transactionMap tid },
           [Effect.consoleOut "Got wsmsg:"] ++ r.2) := by
  rw [OnMessageFromJanus]
  simp only [hd, ht, hreg, hS, hr, Option.getD_some, eq_self_iff_true, if_true, if_false,
    eq_false (by decide : ¬(("success" : String) = "")),
    eq_false (by decide : ¬(("success" : String) = "ack"))]

theorem onMsg_error_notFound (s : ConductorState) (msg : JValue) (tid : String)
    (hd : getStringFromJsonObject msg "janus" = some "error")
    (ht : getStringFromJsonObject msg "transaction" = some tid)
    (hreg : lookupEntry s.m_transactionMap tid = none) :
    OnMessageFromJanus s msg = .error .outOfRange := by
  rw [OnMessageFromJanus]
  simp only [hd, ht, hreg, Option.getD_some, eq_self_iff_true, if_true, if_false,
    eq_false (by decide : ¬(("error" : String) = "")),
    eq_false (by decide : ¬(("error" : String) = "ack")),
    eq_false (by decide : ¬(("error" : String) = "success")),
    eq_false (by decide : ¬(("error" : String) = "trickle")),
    eq_false (by decide : ¬(("error" : String) = "webrtcup")),
    eq_false (by decide : ¬(("error" : String) = "hangup")),
    eq_false (by decide : ¬(("error" : String) = "detached")),
    eq_false (by decide : ¬(("error" : String) = "media")),
    eq_false (by decide : ¬(("error" : String) = "slowlink"))]

theorem onMsg_error_noCont (s : ConductorState) (msg : JValue) (tid : String)
    (jt : JanusTransaction)
    (hd : getStringFromJsonObject msg "janus" = some "error")
    (ht : getStringFromJsonObject msg "transaction" = some tid)
    (hreg : lookupEntry s.m_transactionMap tid = some jt)
    (hE : jt.Error = none) :
    OnMessageFromJanus s msg = .error .badFunctionCall := by
  rw [OnMessageFromJanus]
  simp only [hd, ht, hreg, hE, Option.getD_some, eq_self_iff_true, if_true, if_false,
    eq_false (by decide : ¬(("error" : String) = "")),
    eq_false (by decide : ¬(("error" : String) = "ack")),
    eq_false (by decide : ¬(("error" : String) = "success")),
    eq_false (by decide : ¬(("error" : String) = "trickle")),
    eq_false (by decide : ¬(("error" : String) = "webrtcup")),
    eq_false (by decide : ¬(("error" : String) = "hangup")),
    eq_false (by decide : ¬(("error" : String) = "detached")),
    eq_false (by decide : ¬(("error" : String) = "media")),
    eq_false (by decide : ¬(("error" : String) = "slowlink"))]

theorem onMsg_error_ok (s : ConductorState) (msg : JValue) (tid : String)
    (jt : JanusTransaction) (k : ErrorCont)
    (hd : getStringFromJsonObject msg "janus" = some "error")
    (ht : getStringFromJsonObject msg "transaction" = some tid)
    (hreg : lookupEntry s.m_transactionMap tid = some jt)
    (hE : jt.Error = some k) :
    OnMessageFromJanus s msg =
      .ok ({ (runErrorCont k "123" "456" s).1 with
              m_transactionMap :=
                eraseEntry (runErrorCont k "123" "456" s).1.m_transactionMap tid },
           [Effect.consoleOut "Got wsmsg:"] ++ [Effect.logInfo "Got an error. "] ++
             (runErrorCont k "123" "456" s).2) := by
  rw [OnMessageFromJanus]
  simp only [hd, ht, hreg, hE, Option.getD_some, eq_self_iff_true, if_true, if_false,
    eq_false (by decide : ¬(("error" : String) = "")),
    eq_false (by decide : ¬(("error" : String) = "ack")),
    eq_false (by decide : ¬(("error" : String) = "success")),
    eq_false (by decide : ¬(("error" : String) = "trickle")),
    eq_false (by decide : ¬(("error" : String) = "webrtcup")),
    eq_false (by decide : ¬(("error" : String) = "hangup")),
    eq_false (by decide : ¬(("error" : String) = "detached")),
    eq_false (by decide : ¬(("error" : String) = "media")),
    eq_false (by decide : ¬(("error" : String) = "slowlink"))]

theorem onMsg_event_noCont (s : ConductorState) (msg : JValue) (tid : String)
    (jt : JanusTransaction)
    (hd : getStringFromJsonObject msg "janus" = some "event")
    (ht : getStringFromJsonObject msg "transaction" = some tid)
    (hreg : lookupEntry s.m_transactionMap tid = some jt)
    (hE : jt.Event = none) :
    OnMessageFromJanus s msg = .error .badFunctionCall := by
  rw [OnMessageFromJanus]
  simp only [hd, ht, hreg, hE, Option.getD_some, eq_self_iff_true, if_true, if_false,
    eq_false (by decide : ¬(("event" : String) = "")),
    eq_false (by decide : ¬(("event" : String) = "ack")),
    eq_false (by decide : ¬(("event" : String) = "success")),
    eq_false (by decide : ¬(("event" : String) = "trickle")),
    eq_false (by decide : ¬(("event" : String) = "webrtcup")),
    eq_false (by decide : ¬(("event" : String) = "hangup")),
    eq_false (by decide : ¬(("event" : String) = "detached")),
    eq_false (by decide : ¬(("event" : String) = "media")),
    eq_false (by decide : ¬(("event" : String) = "slowlink")),
    eq_false (by decide : ¬(("event" : String) = "error"))]

theorem onMsg_event_ok (s : ConductorState) (msg : JValue) (tid : String)
    (jt : JanusTransaction) (k : EventCont)
    (hd : getStringFromJsonObject msg "janus" = some "event")
    (ht : getStringFromJsonObject msg "transaction" = some tid)
    (hreg : lookupEntry s.m_transactionMap tid = some jt)
    (hE : jt.Event = some k) :
    OnMessageFromJanus s msg =
      .ok ((runEventCont k msg s).1,
           [Effect.consoleOut "Got wsmsg:"] ++
             [Effect.logInfo "Got a plugin event! "] ++ (runEventCont k msg s).2) := by
  rw [OnMessageFromJanus]
  simp only [hd, ht, hreg, hE, Option.getD_some, eq_self_iff_true, if_true, if_false,
    eq_false (by decide : ¬(("event" : String) = "")),
    eq_false (by decide : ¬(("event" : String) = "ack")),
    eq_false (by decide : ¬(("event" : String) = "success")),
    eq_false (by decide : ¬(("event" : String) = "trickle")),
    eq_false (by decide : ¬(("event" : String) = "webrtcup")),
    eq_false (by decide : ¬(("event" : String) = "hangup")),
    eq_false (by decide : ¬(("event" : String) = "detached")),
    eq_false (by decide : ¬(("event" : String) = "media")),
    eq_false (by decide : ¬(("event" : String) = "slowlink")),
    eq_false (by decide : ¬(("event" : String) = "error"))]

/-!
## Claim theorems
-/

/-- C1. The claim states that an inbound `success`, `error` or `event`
message whose transaction id is not in the registry yields a `NotFound`
outcome and never aborts or throws.  On the code this is false: for each of
the three discriminators, delivering a message with unregistered transaction
id `"zzz"` to an empty registry makes `OnMessageFromJanus` raise
`std::out_of_range` from the unconditional `m_transactionMap.at(...)`
lookup, instead of logging and dropping the message. -/
theorem c1_unmatched_transaction_raises :
    OnMessageFromJanus emptyState
      (.jobj [("janus", .jstr "success"), ("transaction", .jstr "zzz")]) =
        .error .outOfRange ∧
    OnMessageFromJanus emptyState
      (.jobj [("janus", .jstr "error"), ("transaction", .jstr "zzz")]) =
        .error .outOfRange ∧
    OnMessageFromJanus emptyState
      (.jobj [("janus", .jstr "event"), ("transaction", .jstr "zzz")]) =
        .error .outOfRange :=
  ⟨rfl, rfl, rfl⟩

/-- C2. For every registered transaction, a delivery of a `success` or
`error` response that completes normally removes the transaction from the
registry (so the terminal continuations cannot run again), while an `event`
delivery leaves the registry unchanged. -/
theorem c2_terminal_removes_event_preserves
    (s : ConductorState) (msg : JValue) (d tid : String)
    (jt : JanusTransaction) (s' : ConductorState) (effs : List Effect)
    (hd : getStringFromJsonObject msg "janus" = some d)
    (ht : getStringFromJsonObject msg "transaction" = some tid)
    (hreg : lookupEntry s.m_transactionMap tid = some jt)
    (hok : OnMessageFromJanus s msg = .ok (s', effs)) :
    ((d = "success" ∨ d = "error") →
        lookupEntry s'.m_transactionMap tid = none) ∧
    (d = "event" → s'.m_transactionMap = s.m_transactionMap) := by
  constructor
  · rintro (rfl | rfl)
    · cases hS : jt.Success with
      | none =>
        rw [onMsg_success_noCont s msg tid jt hd ht hreg hS] at hok
        exact Except.noConfusion hok
      | some k =>
        cases hr : runSuccessCont k 0 msg s with
        | error e =>
          rw [onMsg_success_raises s msg tid jt k e hd ht hreg hS hr] at hok
          exact Except.noConfusion hok
        | ok r =>
          rw [onMsg_success_ok s msg tid jt k r hd ht hreg hS hr] at hok
          simp only [Except.ok.injEq, Prod.mk.injEq] at hok
          rw [← hok.1]
          exact lookupEntry_eraseEntry_self _ _
    · cases hE : jt.Error with
      | none =>
        rw [onMsg_error_noCont s msg tid jt hd ht hreg hE] at hok
        exact Except.noConfusion hok
      | some k =>
        rw [onMsg_error_ok s msg tid jt k hd ht hreg hE] at hok
        simp only [Except.ok.injEq, Prod.mk.injEq] at hok
        rw [← hok.1]
        exact lookupEntry_eraseEntry_self _ _
  · rintro rfl
    cases hE : jt.Event with
    | none =>
      rw [onMsg_event_noCont s msg tid jt hd ht hreg hE] at hok
      exact Except.noConfusion hok
    | some k =>
      rw [onMsg_event_ok s msg tid jt k hd ht hreg hE] at hok
      simp only [Except.ok.injEq, Prod.mk.injEq] at hok
      rw [← hok.1, runEventCont_fst]

/-- Witness for C2: a concrete `error` delivery on the registered
transaction `"abc123"` completes normally and the transaction is gone
from the registry afterwards. -/
theorem c2_witness :
    OnMessageFromJanus pendingCreateState error458Msg =
      .ok ({ pendingCreateState with m_transactionMap := [] },
           [.consoleOut "Got wsmsg:", .logInfo "Got an error. ",
            .logInfo "Ooops: 123 456"]) ∧
    lookupEntry ({ pendingCreateState with m_transactionMap := [] } :
        ConductorState).m_transactionMap "abc123" = none :=
  ⟨rfl,
   (c2_terminal_removes_event_preserves pendingCreateState error458Msg "error"
      "abc123" (jtCreateSession "abc123")
      { pendingCreateState with m_transactionMap := [] }
      [.consoleOut "Got wsmsg:", .logInfo "Got an error. ",
       .logInfo "Ooops: 123 456"] rfl rfl rfl rfl).1 (Or.inr rfl)⟩

/-- C3. The claim states that delivering
`{"janus":"error","transaction":"abc123","error":{"code":458,"reason":"no such session"}}`
to a pending transaction invokes `onError("458","no such session")`, and a
second delivery yields `NotFound`.  On the code: the error continuation is
invoked with the hard-coded literals `"123"` and `"456"` (the envelope's
`error.code`/`error.reason` are never read — the source carries a `TODO`
admitting this), and the second delivery raises `std::out_of_range` instead
of returning a `NotFound` outcome.  The transaction-removal part does hold. -/
theorem c3_error_code_hardcoded_second_delivery_raises :
    OnMessageFromJanus pendingCreateState error458Msg =
      .ok ({ pendingCreateState with m_transactionMap := [] },
           [.consoleOut "Got wsmsg:", .logInfo "Got an error. ",
            .logInfo "Ooops: 123 456"]) ∧
    OnMessageFromJanus { pendingCreateState with m_transactionMap := [] }
        error458Msg = .error .outOfRange :=
  ⟨rfl, rfl⟩

/-- C4. Delivering the create-session success envelope with `data.id = n`
to the pending `"abc123"` transaction stores exactly `n` in `m_SessionId`
(for every `n` in the non-negative `long long` range, i.e. the decimal
rendering by `rtc::JsonValueToString` followed by `std::stoll` is lossless)
and proceeds to the attach-handle step, sending the `attach` request. -/
theorem c4_session_id_roundtrip (n : Nat) (h : n < 2 ^ 63) :
    OnMessageFromJanus pendingCreateState (createSuccessMsg n) =
      .ok (afterCreateSuccessState n,
           [.consoleOut "Got wsmsg:", .sendToJanus (attachMsgSent n)]) ∧
    (afterCreateSuccessState n).m_SessionId = (n : Int) := by
  constructor
  · have hr : runSuccessCont .createSessionS 0 (createSuccessMsg n)
        pendingCreateState =
        .ok (CreateHandle { pendingCreateState with m_SessionId := (n : Int) }) := by
      have hbase : runSuccessCont .createSessionS 0 (createSuccessMsg n)
          pendingCreateState =
          match stoll (jsonValueToString (.jint (n : Int))) with
          | .error e => .error e
          | .ok v => .ok (CreateHandle { pendingCreateState with m_SessionId := v }) :=
        rfl
      rw [hbase, jsonValueToString_natInt, stoll_natToString n h]
    rw [onMsg_success_ok pendingCreateState (createSuccessMsg n) "abc123"
        (jtCreateSession "abc123") .createSessionS _ rfl rfl rfl rfl hr]
    rfl
  · rfl

/-- Witness for C4 at the spec's concrete id `1234567890123`. -/
theorem c4_witness :
    1234567890123 < 2 ^ 63 ∧
    (OnMessageFromJanus pendingCreateState (createSuccessMsg 1234567890123) =
      .ok (afterCreateSuccessState 1234567890123,
           [.consoleOut "Got wsmsg:",
            .sendToJanus (attachMsgSent 1234567890123)]) ∧
     (afterCreateSuccessState 1234567890123).m_SessionId = (1234567890123 : Int)) :=
  ⟨by norm_num, c4_session_id_roundtrip 1234567890123 (by norm_num)⟩

/-- C5. The claim states that in the negotiating step an inbound event
carrying a remote description has that payload extracted from the event
message and handed to apply-remote-description, with the session becoming
Connected or Failed according to the collaborator's result.  On the code:
the `SendOffer` event lambda reads `"jsep"` from a freshly
default-constructed null `Json::Value` instead of the parsed message, so
for an event that does carry a remote description the media engine is
handed the constant text `"null"` (the serialization of the null value) —
the message's `jsep` payload (type `"answer"`, sdp `"v=0 remote-answer"`)
is never extracted — and no Connected/Failed state exists or is updated. -/
theorem c5_remote_description_not_extracted :
    OnMessageFromJanus pendingOfferState offerEventMsg =
      .ok (pendingOfferState,
           [.consoleOut "Got wsmsg:", .logInfo "Got a plugin event! ",
            .setRemoteDescription "null"]) :=
  rfl

/-- C6. The claim states that serializing a candidate
`(mid="0", mLineIndex=0, candidate="candidate:1 ...")` to a wire message
and re-parsing yields identical values for all three fields.  On
`trickleCandidate` this is false: the source assigns the `"sdpMid"` key
twice, so the serialized candidate object carries the candidate string
under `"sdpMid"` (the mid `"0"` is overwritten) and has no `"candidate"`
member at all. -/
theorem c6_candidate_roundtrip_broken :
    trickleCandidate trickleState 0 sampleCandidate =
      ({ trickleState with randSupply := [] }, [.sendToJanus trickleWireDoc]) ∧
    getMember (.jobj [("sdpMid", .jstr "candidate:1 ..."),
                      ("sdpMLineIndex", .jint 0)]) "sdpMid" =
      some (.jstr "candidate:1 ...") ∧
    getMember (.jobj [("sdpMid", .jstr "candidate:1 ..."),
                      ("sdpMLineIndex", .jint 0)]) "candidate" = none :=
  ⟨rfl, rfl, rfl⟩

/-- C7. The claim states that an outbound candidate is sent in a request
whose `janus` discriminator is `"trickle"`.  On the code: no transaction is
registered (the fire-and-forget part holds), the request does carry the
candidate, but its `janus` field is `"message"`, not `"trickle"`. -/
theorem c7_trickle_request_discriminator :
    (trickleCandidate trickleState 0 sampleCandidate).1.m_transactionMap =
      trickleState.m_transactionMap ∧
    (trickleCandidate trickleState 0 sampleCandidate).2 =
      [.sendToJanus trickleWireDoc] ∧
    getMember trickleWireDoc "janus" = some (.jstr "message") ∧
    getMember trickleWireDoc "candidate" =
      some (.jobj [("sdpMid", .jstr "candidate:1 ..."),
                   ("sdpMLineIndex", .jint 0)]) :=
  ⟨rfl, rfl, rfl, rfl⟩

/-- C8 counterexample. The claim states `Register` fails with
`DuplicateId` when the id is already present, leaving the existing record
unchanged.  On the code: `m_transactionMap[transactionID] = jt` stores
unconditionally — running `CreateSession` when the drawn id `"t"` is
already registered replaces the old record (here a join-room record) with
the new create-session record, and no `DuplicateId` outcome exists. -/
theorem c8_register_overwrites_counterexample :
    (CreateSession { emptyState with
        m_transactionMap := [("t", jtJoinRoom "t")],
        randSupply := ["t"] }).1.m_transactionMap =
      [("t", jtCreateSession "t")] ∧
    jtCreateSession "t" ≠ jtJoinRoom "t" :=
  ⟨rfl, by decide⟩

/-- C8 amended: registration stores the new record unconditionally — after
`CreateSession` draws id `t`, the registry maps `t` to the fresh
create-session record whatever it held before. -/
theorem c8_register_unconditionally_stores (s : ConductorState) (t : String)
    (rest : List String) (hsup : s.randSupply = t :: rest) :
    lookupEntry (CreateSession s).1.m_transactionMap t =
      some (jtCreateSession t) := by
  simp only [CreateSession, RandomString12, hsup]
  exact lookupEntry_setEntry_self _ _ _

/-- Witness for the amended C8, at a state already holding id `"t"`. -/
theorem c8_amended_witness :
    lookupEntry (CreateSession { emptyState with
        m_transactionMap := [("t", jtJoinRoom "t")],
        randSupply := ["t"] }).1.m_transactionMap "t" =
      some (jtCreateSession "t") :=
  c8_register_unconditionally_stores
    { emptyState with
      m_transactionMap := [("t", jtJoinRoom "t")],
      randSupply := ["t"] } "t" [] rfl

/-- C9 counterexample. The claim states `Close()` clears the registry,
abandons pending transactions and prevents any of their continuations from
running afterwards.  On the code: `Close` only signs out and deletes the
peer connection — the registry still holds the pending create-session
transaction afterwards, and a success response delivered after `Close`
still runs its continuation, which mutates `m_SessionId` and sends the
attach request. -/
theorem c9_close_counterexample :
    (Close pendingCreateState).1.m_transactionMap =
      [("abc123", jtCreateSession "abc123")] ∧
    OnMessageFromJanus (Close pendingCreateState).1 (createSuccessMsg 7) =
      .ok (afterCreateSuccessState 7,
           [.consoleOut "Got wsmsg:", .sendToJanus (attachMsgSent 7)]) :=
  ⟨rfl, rfl⟩

/-- C9 amended: `Close` is idempotent and releases the peer connection,
but it leaves the transaction registry untouched — pending transactions
are not abandoned and remain correlatable. -/
theorem c9_close_idempotent_registry_untouched (s : ConductorState) :
    (Close s).1.m_transactionMap = s.m_transactionMap ∧
    Close (Close s).1 = Close s :=
  ⟨rfl, rfl⟩

/-- C10. The transactions registered by `JoinRoom` and `SendOffer` carry
only an `Event` continuation — `Success` (and `Error`) are left as empty
`std::function`s — so an inbound `success` envelope echoing such a
transaction's id makes `OnMessageFromJanus` invoke the empty continuation,
raising `std::bad_function_call`: the success path for these transactions
is not safely handleable. -/
theorem c10_join_offer_success_not_handleable
    (s : ConductorState) (h f : Int) (ty sdp : String) (t : String)
    (rest : List String) (hsup : s.randSupply = t :: rest)
    (s2 : ConductorState) (msg : JValue) (tid : String) (jt : JanusTransaction)
    (hj : getStringFromJsonObject msg "janus" = some "success")
    (ht : getStringFromJsonObject msg "transaction" = some tid)
    (hl : lookupEntry s2.m_transactionMap tid = some jt)
    (hS : jt.Success = none) :
    lookupEntry (JoinRoom s h f).1.m_transactionMap t = some (jtJoinRoom t) ∧
    lookupEntry (SendOffer s h ty sdp).1.m_transactionMap t =
      some (jtSendOffer t) ∧
    OnMessageFromJanus s2 msg = .error .badFunctionCall := by
  refine ⟨?_, ?_, onMsg_success_noCont s2 msg tid jt hj ht hl hS⟩
  · cases hpc : s.pcInitOk <;>
      simp only [JoinRoom, RandomString12, InitializePeerConnection, hsup, hpc,
        Bool.false_eq_true, if_true, if_false, eq_self_iff_true] <;>
      exact lookupEntry_setEntry_self _ _ _
  · simp only [SendOffer, RandomString12, hsup]
    exact lookupEntry_setEntry_self _ _ _

/-- Witness for C10: concrete `JoinRoom`/`SendOffer` registrations and a
concrete success envelope for the pending offer transaction. -/
theorem c10_witness :
    lookupEntry (JoinRoom { emptyState with randSupply := ["tJoin0000001"] }
        5 0).1.m_transactionMap "tJoin0000001" = some (jtJoinRoom "tJoin0000001") ∧
    lookupEntry (SendOffer { emptyState with randSupply := ["tJoin0000001"] }
        5 "offer" "v=0 sdp").1.m_transactionMap "tJoin0000001" =
      some (jtSendOffer "tJoin0000001") ∧
    OnMessageFromJanus pendingOfferState offerSuccessMsg =
      .error .badFunctionCall :=
  c10_join_offer_success_not_handleable
    { emptyState with randSupply := ["tJoin0000001"] } 5 0 "offer" "v=0 sdp"
    "tJoin0000001" [] rfl pendingOfferState offerSuccessMsg "offer0000001"
    (jtSendOffer "offer0000001") rfl rfl rfl rfl

end JanusWs
